import Mathlib

/-!
Verification development for the clinvar_ACMG_query_tool repository.

The repository has two Python source files, each exporting a function
`query_clinvar_for_specific_variant(gene_name, variant)`:

* `ClinVar_query_tool_single_variant.py` (the "single" tool), and
* `Clinvar_query_tool_batch.py` (the "batch" tool), which also exports
  `batch_query_from_excel(input_path, output_path)`.

Both resolvers perform an esearch HTTP call (whose decoded JSON yields an
identifier list) followed by one esummary HTTP call per candidate identifier.
We embed the network as explicit parameters: the esearch outcome is a
`SearchResult` (the search term is built from the inputs and sent once, so the
response to that one request is passed directly), and the per-candidate
esummary outcomes are a function `String → DetailResult`.

Scope of the embedding: JSON documents are modelled only down to the fields the
code reads (`requests` raises `RequestException` for network errors, bad HTTP
status, and — via its `JSONDecodeError` subclass — malformed bodies, all of
which the code catches, so those outcomes are folded into the error
constructors); Python `str.upper`, `str.lower`, `str.strip` and substring `in`
are modelled over ASCII by structural functions on the character list, so that
every definition evaluates by kernel reduction.  Uncaught Python exceptions
(for this code, `NameError` on a variable that was never assigned) are
modelled by explicit `crash` result constructors.

Each resolver returns its result paired with the trace of candidate
identifiers for which an esummary (detail-fetch) call was issued, so that
claims about which detail fetches happen are statable.
-/

/-- ASCII model of Python `str.upper` (`Char.toUpper` is the ASCII case map). -/
def pyUpper (s : String) : String := String.mk (s.data.map Char.toUpper)

/-- ASCII model of Python `str.lower`. -/
def pyLower (s : String) : String := String.mk (s.data.map Char.toLower)

/-- ASCII whitespace stripped by the model of Python `str.strip`. -/
def isStripChar (c : Char) : Bool := c = ' ' || c = '\t' || c = '\n' || c = '\r'

/-- Model of Python `str.strip`: drop leading and trailing whitespace. -/
def pyStrip (s : String) : String :=
  String.mk (((s.data.dropWhile isStripChar).reverse.dropWhile isStripChar).reverse)

/-- Does `pat` occur as a contiguous sublist of `l`? -/
def hasSubList (pat : List Char) : List Char → Bool
  | [] => pat.isEmpty
  | c :: rest => pat.isPrefixOf (c :: rest) || hasSubList pat rest

/-- Model of Python `pat in s` substring membership (for nonempty `pat`). -/
def pyIn (pat s : String) : Bool := hasSubList pat.data s.data

/-- Model of Python `sep.join(l)`. -/
def joinStr (sep : String) : List String → String
  | [] => ""
  | [x] => x
  | x :: y :: xs => x ++ sep ++ joinStr sep (y :: xs)

/-- One element of the `genes` field of an esummary record: the code accepts a
dict (whose `symbol` key may be absent), a bare string, or anything else
(which it skips). -/
inductive GeneEntry where
  | dict (symbol : Option String)
  | str (s : String)
  | other
  deriving DecidableEq, Repr

/-- One element of the `variation_set` field: a dict (whose `canonical_spdi`
key may be absent) or an unstructured (non-dict) entry. -/
inductive VSetEntry where
  | dict (canonical_spdi : Option String)
  | other
  deriving DecidableEq, Repr

/-- The fields of a (non-empty) `var_data` dict that the code reads; an absent
key is `none` / `[]`, matching the `.get` defaults used by the code. -/
structure VarData where
  genes : List GeneEntry
  variation_set : List VSetEntry
  accession : Option String
  title : Option String
  chr_sort : Option String
  germline_desc : Option String
  mol_cons : Option (List String)
  deriving DecidableEq, Repr

/-- The empty dict `{}` viewed through the `.get` calls the code performs. -/
def VarData.empty : VarData := ⟨[], [], none, none, none, none, none⟩

/-- Outcome of the esearch phase: a caught `RequestException` (network error,
non-success status, malformed body) with its message, or the decoded
`idlist`. -/
inductive SearchResult where
  | err (msg : String)
  | ok (idlist : List String)
  deriving DecidableEq, Repr

/-- Outcome of one esummary call for one candidate id: a caught
`RequestException`, or `summary_data['result'].get(var_id, {})` — `none` when
that dict is empty or the id key is absent, `some d` otherwise. -/
inductive DetailResult where
  | fetchError
  | payload (d : Option VarData)
  deriving DecidableEq, Repr

/-- Lines 71-77 / 85-91 of the two tools: build the flat gene-symbol list from
the `genes` field.  A dict contributes `gene.get('symbol', '')` (so a dict
without a `symbol` key contributes `""`), a bare string contributes itself,
anything else is skipped. -/
def extract_gene_symbols : List GeneEntry → List String
  | [] => []
  | GeneEntry.dict symbol :: rest => symbol.getD "" :: extract_gene_symbols rest
  | GeneEntry.str s :: rest => s :: extract_gene_symbols rest
  | GeneEntry.other :: rest => extract_gene_symbols rest

/-- The gene-match test `gene_name.upper() in [g.upper() for g in gene_symbols]`
(the code branches on its negation). -/
def gene_match (gene_name : String) (gene_symbols : List String) : Bool :=
  (gene_symbols.map pyUpper).contains (pyUpper gene_name)

/-- Batch tool lines 95-97: the del/dup title exclusion test
`"del" in title.lower() or "dup" in title.lower()`. -/
def title_excluded (title : String) : Bool :=
  pyIn "del" (pyLower title) || pyIn "dup" (pyLower title)

/-- Batch tool lines 100-103: `canonical_spdi = 'N/A'`, overwritten by
`variation_set[0].get('canonical_spdi', 'N/A')` when the variation set is
non-empty with a dict first element. -/
def canonical_spdi_batch : List VSetEntry → String
  | VSetEntry.dict spdi :: _ => spdi.getD "N/A"
  | _ => "N/A"

/-- Single tool lines 83-86.  The default initializer is misspelled
(`cannonical_spid='N/A'`), so the variable `canonical_spdi` is assigned only
inside the `if`, with default string `'NA'` for a missing key; when the
variation set is empty or its first element is not a dict, `canonical_spdi`
is never assigned and the later read raises `NameError` — modelled as
`none`. -/
def canonical_spdi_single : List VSetEntry → Option String
  | VSetEntry.dict spdi :: _ => some (spdi.getD "NA")
  | _ => none

/-- The dict returned by the batch tool on success (lines 105-116). -/
structure BatchRecord where
  gene : String
  variant : String
  variationId : String
  accession : String
  title : String
  canonicalSpdi : String
  geneSymbol : String
  chromosome : String
  acmgScore : String
  molecularConsequence : String
  deriving DecidableEq, Repr

/-- Value of the single tool's `"Molecular Consequence"` key:
`var_data.get('molecular_consequence_list', 'N/A')` is either the raw list or
the string `'N/A'`. -/
inductive ListOrNA where
  | na
  | items (l : List String)
  deriving DecidableEq, Repr

/-- The dict returned by the single tool on success (lines 88-97). -/
structure SingleRecord where
  variationId : String
  accession : String
  title : String
  canonicalSpdi : String
  geneSymbol : String
  chromosome : String
  acmgScore : String
  molecularConsequence : ListOrNA
  deriving DecidableEq, Repr

/-- Outcome of the batch tool's resolver: an error dict carrying the Gene,
Variant and Error fields; a full record dict; or an uncaught exception
(`crash`, which the theorems show the batch tool never produces). -/
inductive BatchResult where
  | failure (gene variant error : String)
  | record (r : BatchRecord)
  | crash (e : String)
  deriving DecidableEq, Repr

/-- Outcome of the single tool's resolver: a returned error-message string, a
record dict, or an uncaught exception. -/
inductive SingleRes where
  | errString (s : String)
  | record (r : SingleRecord)
  | crash (e : String)
  deriving DecidableEq, Repr

/-- Batch tool lines 105-116: the record built from the accepted candidate. -/
def mkBatchRecord (gene_name variant var_id : String) (d : VarData) : BatchRecord where
  gene := gene_name
  variant := variant
  variationId := var_id
  accession := d.accession.getD "N/A"
  title := d.title.getD "N/A"
  canonicalSpdi := canonical_spdi_batch d.variation_set
  geneSymbol := joinStr ", " (extract_gene_symbols d.genes)
  chromosome := d.chr_sort.getD "N/A"
  acmgScore := d.germline_desc.getD "N/A"
  molecularConsequence := joinStr ", " (d.mol_cons.getD ["N/A"])

/-- Batch tool lines 71-117: the candidate loop.  A candidate is skipped when
its fetch raises, its payload is empty, the gene does not match, or its title
contains del/dup; the first surviving candidate yields the record; loop
completion yields the fixed no-match error dict.  The second component is the
trace of candidate ids for which an esummary call was issued. -/
def batch_loop (gene_name variant : String) (fetch : String → DetailResult) :
    List String → BatchResult × List String
  | [] => (BatchResult.failure gene_name variant "No matching ClinVar record for gene", [])
  | var_id :: rest =>
    match fetch var_id with
    | DetailResult.fetchError =>
      let p := batch_loop gene_name variant fetch rest
      (p.1, var_id :: p.2)
    | DetailResult.payload none =>
      let p := batch_loop gene_name variant fetch rest
      (p.1, var_id :: p.2)
    | DetailResult.payload (some var_data) =>
      if !(gene_match gene_name (extract_gene_symbols var_data.genes)) then
        let p := batch_loop gene_name variant fetch rest
        (p.1, var_id :: p.2)
      else if title_excluded (var_data.title.getD "") then
        let p := batch_loop gene_name variant fetch rest
        (p.1, var_id :: p.2)
      else
        (BatchResult.record (mkBatchRecord gene_name variant var_id var_data), [var_id])

/-- Batch tool lines 51-117: `query_clinvar_for_specific_variant` of
`Clinvar_query_tool_batch.py`, paired with its detail-fetch trace. -/
def query_clinvar_batch (gene_name variant : String) (search : SearchResult)
    (fetch : String → DetailResult) : BatchResult × List String :=
  match search with
  | SearchResult.err e =>
    (BatchResult.failure gene_name variant ("Unable to search ClinVar: " ++ e), [])
  | SearchResult.ok id_list =>
    if id_list.isEmpty then
      (BatchResult.failure gene_name variant ("No variants found for gene: " ++ gene_name), [])
    else
      batch_loop gene_name variant fetch id_list

/-- The loop variable `var_id` after the single tool's loop over a non-empty
`id_list`: its last element. -/
def last_var_id : List String → String
  | [] => ""
  | [id] => id
  | _ :: id2 :: rest => last_var_id (id2 :: rest)

/-- The value of the variable `var_data` after the single tool's loop (lines
55-67): every iteration fetches its candidate, a raised fetch leaves
`var_data` untouched, and a successful fetch overwrites it with the payload
(`{}` when empty).  `none` means the variable was never assigned, so the read
at line 72 raises `NameError`. -/
def lastAssigned (fetch : String → DetailResult) :
    List String → Option VarData → Option VarData
  | [], acc => acc
  | id :: rest, acc =>
    match fetch id with
    | DetailResult.fetchError => lastAssigned fetch rest acc
    | DetailResult.payload none => lastAssigned fetch rest (some VarData.empty)
    | DetailResult.payload (some d) => lastAssigned fetch rest (some d)

/-- Single tool lines 70-99: the code that runs after the loop, on the final
values of `var_id` and `var_data` (the extraction, gene-match and record
construction are outside the `for` body in this file). -/
def single_post (gene_name var_id : String) (vd : Option VarData) : SingleRes :=
  match vd with
  | none => SingleRes.crash "NameError: name var_data is not defined"
  | some var_data =>
    let gene_symbols := extract_gene_symbols var_data.genes
    if !(gene_match gene_name gene_symbols) then
      SingleRes.errString ("Variant found but not associated with gene " ++ gene_name ++
        ". Found genes: " ++ joinStr ", " gene_symbols)
    else
      match canonical_spdi_single var_data.variation_set with
      | none => SingleRes.crash "NameError: name canonical_spdi is not defined"
      | some spdi =>
        SingleRes.record
          { variationId := var_id
            accession := var_data.accession.getD "N/A"
            title := var_data.title.getD "N/A"
            canonicalSpdi := spdi
            geneSymbol := joinStr ", " gene_symbols
            chromosome := var_data.chr_sort.getD "N/A"
            acmgScore := var_data.germline_desc.getD "N/A"
            molecularConsequence :=
              match var_data.mol_cons with
              | none => ListOrNA.na
              | some l => ListOrNA.items l }

/-- Single tool lines 29-99: `query_clinvar_for_specific_variant` of
`ClinVar_query_tool_single_variant.py`, paired with its detail-fetch trace
(the loop fetches every candidate id before the post-loop code runs). -/
def query_clinvar_single (gene_name variant : String) (search : SearchResult)
    (fetch : String → DetailResult) : SingleRes × List String :=
  match search with
  | SearchResult.err e =>
    (SingleRes.errString ("Error: Unable to search ClinVar. " ++ e), [])
  | SearchResult.ok id_list =>
    if id_list.isEmpty then
      (SingleRes.errString ("No variants found for gene: " ++ gene_name), [])
    else
      (single_post gene_name (last_var_id id_list) (lastAssigned fetch id_list none), id_list)

/-- Batch tool lines 119-139: the row loop of `batch_query_from_excel`.  Rows
are the string renderings of the Gene and Variant cells; a row with a blank
(stripped-empty) cell is skipped, every other row contributes the resolver's
result for its stripped cells.  `env` supplies the network responses for each
(gene, variant) query. -/
def batch_query_from_excel
    (env : String → String → SearchResult × (String → DetailResult)) :
    List (String × String) → List BatchResult
  | [] => []
  | row :: rest =>
    let gene := pyStrip row.1
    let variant := pyStrip row.2
    if gene == "" || variant == "" then
      batch_query_from_excel env rest
    else
      (query_clinvar_batch gene variant (env gene variant).1 (env gene variant).2).1 ::
        batch_query_from_excel env rest

/-- Modelled from the spec and claim C4's words: the first candidate, in
server order, whose detail fetch succeeds with a non-empty payload, whose
extracted gene symbols case-insensitively include the requested gene, and
whose title contains neither del nor dup. -/
def firstAccepted (gene_name : String) (fetch : String → DetailResult) :
    List String → Option (String × VarData)
  | [] => none
  | id :: rest =>
    match fetch id with
    | DetailResult.payload (some d) =>
      if gene_match gene_name (extract_gene_symbols d.genes)
          && !(title_excluded (d.title.getD "")) then
        some (id, d)
      else
        firstAccepted gene_name fetch rest
    | _ => firstAccepted gene_name fetch rest

/-! ### Structural lemmas about the two resolvers -/

/-- Any record produced by the batch candidate loop comes from some candidate
whose fetch yielded a non-empty payload that passed the gene-match and
del/dup filters, and the record is the one built from that candidate. -/
theorem batch_loop_fst_record {gene_name variant : String} {fetch : String → DetailResult} :
    ∀ {ids : List String} {r : BatchRecord},
      (batch_loop gene_name variant fetch ids).1 = BatchResult.record r →
      ∃ id d, fetch id = DetailResult.payload (some d) ∧
        gene_match gene_name (extract_gene_symbols d.genes) = true ∧
        title_excluded (d.title.getD "") = false ∧
        r = mkBatchRecord gene_name variant id d := by
  intro ids
  induction ids with
  | nil => intro r h; simp [batch_loop] at h
  | cons id0 rest ih =>
    intro r h
    cases hf : fetch id0 with
    | fetchError =>
      simp only [batch_loop, hf] at h
      exact ih h
    | payload q =>
      cases q with
      | none =>
        simp only [batch_loop, hf] at h
        exact ih h
      | some d0 =>
        cases hg : gene_match gene_name (extract_gene_symbols d0.genes) with
        | false =>
          simp only [batch_loop, hf, hg] at h
          simp at h
          exact ih h
        | true =>
          cases ht : title_excluded (d0.title.getD "") with
          | true =>
            simp only [batch_loop, hf, hg, ht] at h
            simp at h
            exact ih h
          | false =>
            simp only [batch_loop, hf, hg, ht] at h
            simp at h
            exact ⟨id0, d0, hf, hg, ht, h.symm⟩

/-- The batch candidate loop never produces a `crash` outcome. -/
theorem batch_loop_fst_ne_crash {gene_name variant : String} {fetch : String → DetailResult} :
    ∀ (ids : List String) (e : String),
      (batch_loop gene_name variant fetch ids).1 ≠ BatchResult.crash e := by
  intro ids
  induction ids with
  | nil => intro e h; simp [batch_loop] at h
  | cons id0 rest ih =>
    intro e h
    cases hf : fetch id0 with
    | fetchError =>
      simp only [batch_loop, hf] at h
      exact ih e h
    | payload q =>
      cases q with
      | none =>
        simp only [batch_loop, hf] at h
        exact ih e h
      | some d0 =>
        cases hg : gene_match gene_name (extract_gene_symbols d0.genes) with
        | false =>
          simp only [batch_loop, hf, hg] at h
          simp at h
          exact ih e h
        | true =>
          cases ht : title_excluded (d0.title.getD "") with
          | true =>
            simp only [batch_loop, hf, hg, ht] at h
            simp at h
            exact ih e h
          | false =>
            simp only [batch_loop, hf, hg, ht] at h
            simp at h

/-- When the claim-worded first-accepted candidate exists, the batch loop
returns exactly the record built from it. -/
theorem batch_loop_of_firstAccepted_some {gene_name variant : String}
    {fetch : String → DetailResult} :
    ∀ (ids : List String) (id : String) (d : VarData),
      firstAccepted gene_name fetch ids = some (id, d) →
      (batch_loop gene_name variant fetch ids).1
        = BatchResult.record (mkBatchRecord gene_name variant id d) := by
  intro ids
  induction ids with
  | nil => intro id d h; simp [firstAccepted] at h
  | cons id0 rest ih =>
    intro id d h
    cases hf : fetch id0 with
    | fetchError =>
      simp only [firstAccepted, hf] at h
      simp only [batch_loop, hf]
      exact ih id d h
    | payload q =>
      cases q with
      | none =>
        simp only [firstAccepted, hf] at h
        simp only [batch_loop, hf]
        exact ih id d h
      | some d0 =>
        cases hg : gene_match gene_name (extract_gene_symbols d0.genes) with
        | false =>
          simp only [firstAccepted, hf, hg] at h
          simp at h
          simp only [batch_loop, hf, hg]
          simp
          exact ih id d h
        | true =>
          cases ht : title_excluded (d0.title.getD "") with
          | true =>
            simp only [firstAccepted, hf, hg, ht] at h
            simp at h
            simp only [batch_loop, hf, hg, ht]
            simp
            exact ih id d h
          | false =>
            simp only [firstAccepted, hf, hg, ht] at h
            simp at h
            obtain ⟨h1, h2⟩ := h
            subst h1; subst h2
            simp only [batch_loop, hf, hg, ht]
            simp

/-- When no candidate is accepted, the batch loop completes and returns the
fixed no-match error dict. -/
theorem batch_loop_of_firstAccepted_none {gene_name variant : String}
    {fetch : String → DetailResult} :
    ∀ (ids : List String),
      firstAccepted gene_name fetch ids = none →
      (batch_loop gene_name variant fetch ids).1
        = BatchResult.failure gene_name variant "No matching ClinVar record for gene" := by
  intro ids
  induction ids with
  | nil => intro _; rfl
  | cons id0 rest ih =>
    intro h
    cases hf : fetch id0 with
    | fetchError =>
      simp only [firstAccepted, hf] at h
      simp only [batch_loop, hf]
      exact ih h
    | payload q =>
      cases q with
      | none =>
        simp only [firstAccepted, hf] at h
        simp only [batch_loop, hf]
        exact ih h
      | some d0 =>
        cases hg : gene_match gene_name (extract_gene_symbols d0.genes) with
        | false =>
          simp only [firstAccepted, hf, hg] at h
          simp at h
          simp only [batch_loop, hf, hg]
          simp
          exact ih h
        | true =>
          cases ht : title_excluded (d0.title.getD "") with
          | true =>
            simp only [firstAccepted, hf, hg, ht] at h
            simp at h
            simp only [batch_loop, hf, hg, ht]
            simp
            exact ih h
          | false =>
            simp only [firstAccepted, hf, hg, ht] at h
            simp at h

/-- When every candidate's detail fetch raises, the single tool's `var_data`
variable is never assigned in the loop. -/
theorem lastAssigned_all_err {fetch : String → DetailResult} :
    ∀ (ids : List String) (acc : Option VarData),
      (∀ id ∈ ids, fetch id = DetailResult.fetchError) →
      lastAssigned fetch ids acc = acc := by
  intro ids
  induction ids with
  | nil => intro acc _; rfl
  | cons id0 rest ih =>
    intro acc hall
    have h0 : fetch id0 = DetailResult.fetchError := hall id0 (by simp)
    have hrest : ∀ x ∈ rest, fetch x = DetailResult.fetchError := fun x hx => hall x (by simp [hx])
    simp only [lastAssigned, h0]
    exact ih acc hrest

/-- When the fetch of the final candidate id succeeds, the single tool's
`var_data` variable ends up holding exactly that candidate's payload,
regardless of every earlier candidate and of the accumulator. -/
theorem lastAssigned_of_last_payload {fetch : String → DetailResult} {p : Option VarData} :
    ∀ (ids : List String), ids ≠ [] →
      fetch (last_var_id ids) = DetailResult.payload p →
      ∀ acc, lastAssigned fetch ids acc = some (p.getD VarData.empty) := by
  intro ids
  induction ids with
  | nil => intro h; exact absurd rfl h
  | cons id0 rest ih =>
    intro _ hlast acc
    cases rest with
    | nil =>
      simp only [last_var_id] at hlast
      cases p with
      | none => simp [lastAssigned, hlast]
      | some d => simp [lastAssigned, hlast]
    | cons id1 rest1 =>
      have hlast1 : fetch (last_var_id (id1 :: rest1)) = DetailResult.payload p := by
        simpa [last_var_id] using hlast
      have ihx := ih (by simp) hlast1
      cases hf : fetch id0 with
      | fetchError => simp only [lastAssigned, hf]; exact ihx acc
      | payload q =>
        cases q with
        | none => simp only [lastAssigned, hf]; exact ihx (some VarData.empty)
        | some d => simp only [lastAssigned, hf]; exact ihx (some d)

/-- Any record produced by the single tool's post-loop code comes from an
assigned `var_data` whose extracted symbols pass the gene match, and the
record's Gene Symbol field is the comma-join of those symbols. -/
theorem single_post_record_inv {gene_name var_id : String} {vd : Option VarData}
    {r : SingleRecord} (h : single_post gene_name var_id vd = SingleRes.record r) :
    ∃ d, vd = some d ∧ gene_match gene_name (extract_gene_symbols d.genes) = true ∧
      r.geneSymbol = joinStr ", " (extract_gene_symbols d.genes) := by
  cases vd with
  | none => simp [single_post] at h
  | some d =>
    cases hg : gene_match gene_name (extract_gene_symbols d.genes) with
    | false => simp [single_post, hg] at h
    | true =>
      cases hc : canonical_spdi_single d.variation_set with
      | none => simp [single_post, hg, hc] at h
      | some spdi =>
        refine ⟨d, rfl, hg, ?_⟩
        simp only [single_post, hg, Bool.not_true, if_false, hc] at h
        rw [← (SingleRes.record.inj h)]

/-! ### Claim theorems -/

/-- C1: whenever either tool's resolver returns a record rather than a
failure, the record's Gene Symbol field is the comma-join of a symbol list
that case-insensitively contains the requested gene, so neither resolver ever
returns a record for a gene absent from the candidate's extracted symbols. -/
theorem C1_record_contains_requested_gene (gene variant : String) (search : SearchResult)
    (fetch : String → DetailResult) :
    (∀ r : BatchRecord,
      (query_clinvar_batch gene variant search fetch).1 = BatchResult.record r →
      ∃ syms, r.geneSymbol = joinStr ", " syms ∧ gene_match gene syms = true)
    ∧ (∀ r : SingleRecord,
      (query_clinvar_single gene variant search fetch).1 = SingleRes.record r →
      ∃ syms, r.geneSymbol = joinStr ", " syms ∧ gene_match gene syms = true) := by
  constructor
  · intro r h
    cases search with
    | err e => simp [query_clinvar_batch] at h
    | ok ids =>
      cases hne : ids.isEmpty with
      | true => simp [query_clinvar_batch, hne] at h
      | false =>
        simp only [query_clinvar_batch, hne] at h
        simp at h
        obtain ⟨id, d, _, hg, _, hr⟩ := batch_loop_fst_record h
        exact ⟨extract_gene_symbols d.genes, by rw [hr]; rfl, hg⟩
  · intro r h
    cases search with
    | err e => simp [query_clinvar_single] at h
    | ok ids =>
      cases hne : ids.isEmpty with
      | true => simp [query_clinvar_single, hne] at h
      | false =>
        simp only [query_clinvar_single, hne] at h
        simp at h
        obtain ⟨d, _, hg, hsym⟩ := single_post_record_inv h
        exact ⟨extract_gene_symbols d.genes, hsym, hg⟩

/-- Witness for C1 at a concrete input on which both tools return a record. -/
theorem C1_record_contains_requested_gene_witness :
    (∃ syms,
      (mkBatchRecord "CHD8" "p.Arg1580Trp" "1"
          ⟨[GeneEntry.dict (some "CHD8")], [VSetEntry.dict (some "S")], none, none, none,
            none, none⟩).geneSymbol
        = joinStr ", " syms ∧ gene_match "CHD8" syms = true)
    ∧ (∃ syms,
      (⟨"1", "N/A", "N/A", "S", "CHD8", "N/A", "N/A", ListOrNA.na⟩ : SingleRecord).geneSymbol
        = joinStr ", " syms ∧ gene_match "CHD8" syms = true) :=
  ⟨(C1_record_contains_requested_gene "CHD8" "p.Arg1580Trp" (SearchResult.ok ["1"])
      (fun _ => DetailResult.payload (some ⟨[GeneEntry.dict (some "CHD8")],
        [VSetEntry.dict (some "S")], none, none, none, none, none⟩))).1
      (mkBatchRecord "CHD8" "p.Arg1580Trp" "1"
        ⟨[GeneEntry.dict (some "CHD8")], [VSetEntry.dict (some "S")], none, none, none,
          none, none⟩) (by decide),
   (C1_record_contains_requested_gene "CHD8" "p.Arg1580Trp" (SearchResult.ok ["1"])
      (fun _ => DetailResult.payload (some ⟨[GeneEntry.dict (some "CHD8")],
        [VSetEntry.dict (some "S")], none, none, none, none, none⟩))).2
      ⟨"1", "N/A", "N/A", "S", "CHD8", "N/A", "N/A", ListOrNA.na⟩ (by decide)⟩

/-- C2 counterexample: the single tool raises an uncaught NameError — it does
not return a result value — when the only candidate's detail fetch fails
(`var_data` never assigned), and likewise when the gene matches but the
candidate's variation_set is empty (`canonical_spdi` never assigned). -/
theorem C2_single_tool_raises_counterexample :
    (query_clinvar_single "CHD8" "p.Arg1580Trp" (SearchResult.ok ["1"])
        (fun _ => DetailResult.fetchError)).1
      = SingleRes.crash "NameError: name var_data is not defined"
    ∧ (query_clinvar_single "CHD8" "p.Arg1580Trp" (SearchResult.ok ["1"])
        (fun _ => DetailResult.payload (some ⟨[GeneEntry.str "CHD8"], [], none, none, none,
          none, none⟩))).1
      = SingleRes.crash "NameError: name canonical_spdi is not defined" :=
  ⟨by decide, by decide⟩

/-- C2 amended: the batch tool always returns a result value (no uncaught
exception for any modelled input), but the single tool raises NameError to its
caller when every candidate's detail fetch fails, and when the gene-matched
final candidate's variation_set is absent, empty, or unstructured. -/
theorem C2_batch_total_single_crash_cases (gene variant : String)
    (search : SearchResult) (fetch : String → DetailResult) :
    (∀ e, (query_clinvar_batch gene variant search fetch).1 ≠ BatchResult.crash e)
    ∧ (∀ ids : List String, ids ≠ [] →
        (∀ id ∈ ids, fetch id = DetailResult.fetchError) →
        (query_clinvar_single gene variant (SearchResult.ok ids) fetch).1
          = SingleRes.crash "NameError: name var_data is not defined")
    ∧ (∀ (id : String) (d : VarData), fetch id = DetailResult.payload (some d) →
        gene_match gene (extract_gene_symbols d.genes) = true →
        canonical_spdi_single d.variation_set = none →
        (query_clinvar_single gene variant (SearchResult.ok [id]) fetch).1
          = SingleRes.crash "NameError: name canonical_spdi is not defined") := by
  refine ⟨?_, ?_, ?_⟩
  · intro e h
    cases search with
    | err m => simp [query_clinvar_batch] at h
    | ok ids =>
      cases hne : ids.isEmpty with
      | true => simp [query_clinvar_batch, hne] at h
      | false =>
        simp only [query_clinvar_batch, hne] at h
        simp at h
        exact batch_loop_fst_ne_crash ids e h
  · intro ids hne hall
    have hie : ids.isEmpty = false := by
      cases ids with
      | nil => exact absurd rfl hne
      | cons a l => rfl
    simp [query_clinvar_single, hie, lastAssigned_all_err ids none hall, single_post]
  · intro id d hf hg hc
    simp [query_clinvar_single, lastAssigned, hf, single_post, hg, hc]

/-- Witness for the C2 amended theorem at a concrete failing fetch. -/
theorem C2_batch_total_single_crash_cases_witness :
    (query_clinvar_single "CHD8" "p.Arg1580Trp" (SearchResult.ok ["7"])
        (fun _ => DetailResult.fetchError)).1
      = SingleRes.crash "NameError: name var_data is not defined" :=
  (C2_batch_total_single_crash_cases "CHD8" "p.Arg1580Trp" (SearchResult.ok ["7"])
      (fun _ => DetailResult.fetchError)).2.1 ["7"] (by decide) (by decide)

/-- C3: evaluation of the canonical-SPDI extraction at the failing inputs.
The batch tool matches the claim (first structured element's canonical_spdi,
else the "N/A" sentinel), but the single tool returns the record with the
"NA" default when the first variation_set element lacks the canonical_spdi
key, and raises an uncaught NameError when the variation_set is empty,
instead of producing "N/A". -/
theorem C3_single_spdi_defaults_eval :
    (query_clinvar_single "CHD8" "v" (SearchResult.ok ["1"])
        (fun _ => DetailResult.payload (some ⟨[GeneEntry.str "CHD8"], [VSetEntry.dict none],
          none, none, none, none, none⟩))).1
      = SingleRes.record ⟨"1", "N/A", "N/A", "NA", "CHD8", "N/A", "N/A", ListOrNA.na⟩
    ∧ (query_clinvar_single "CHD8" "v" (SearchResult.ok ["1"])
        (fun _ => DetailResult.payload (some ⟨[GeneEntry.str "CHD8"], [], none, none, none,
          none, none⟩))).1
      = SingleRes.crash "NameError: name canonical_spdi is not defined"
    ∧ (query_clinvar_batch "CHD8" "v" (SearchResult.ok ["1"])
        (fun _ => DetailResult.payload (some ⟨[GeneEntry.str "CHD8"], [VSetEntry.dict none],
          none, none, none, none, none⟩))).1
      = BatchResult.record ⟨"CHD8", "v", "1", "N/A", "N/A", "N/A", "CHD8", "N/A", "N/A", "N/A"⟩
    ∧ (query_clinvar_batch "CHD8" "v" (SearchResult.ok ["1"])
        (fun _ => DetailResult.payload (some ⟨[GeneEntry.str "CHD8"], [], none, none, none,
          none, none⟩))).1
      = BatchResult.record ⟨"CHD8", "v", "1", "N/A", "N/A", "N/A", "CHD8", "N/A", "N/A", "N/A"⟩
    ∧ ("NA" : String) ≠ "N/A" :=
  ⟨by decide, by decide, by decide, by decide, by decide⟩

/-- C4: for every candidate list, the batch tool returns the VariantRecord
built from the first candidate, in server order, whose detail fetch succeeds
with a non-empty payload, whose extracted symbols case-insensitively include
the requested gene, and whose title contains neither del nor dup
(`firstAccepted` is that claim-worded selector); all earlier candidates,
including gene-matching ones with del/dup titles, are skipped. -/
theorem C4_batch_first_match_with_deldup_filter (gene variant : String)
    (fetch : String → DetailResult) (ids : List String) (id : String) (d : VarData)
    (h : firstAccepted gene fetch ids = some (id, d)) :
    (query_clinvar_batch gene variant (SearchResult.ok ids) fetch).1
      = BatchResult.record (mkBatchRecord gene variant id d) := by
  cases ids with
  | nil => simp [firstAccepted] at h
  | cons id0 rest =>
    have hb := @batch_loop_of_firstAccepted_some gene variant fetch (id0 :: rest) id d h
    simpa [query_clinvar_batch] using hb

/-- Witness for C4: the first candidate matches the gene but has a del title
and is skipped; the second candidate is returned. -/
theorem C4_batch_first_match_with_deldup_filter_witness :
    (query_clinvar_batch "CHD8" "p.X" (SearchResult.ok ["1", "2"])
        (fun i => if i == "1"
          then DetailResult.payload (some ⟨[GeneEntry.str "CHD8"], [], none,
            some "NM_001:c.100del (p.Gly34fs)", none, none, none⟩)
          else DetailResult.payload (some ⟨[GeneEntry.str "CHD8"], [], none,
            some "NM_001:c.101A>T (p.Tyr34Cys)", none, none, none⟩))).1
      = BatchResult.record (mkBatchRecord "CHD8" "p.X" "2"
          ⟨[GeneEntry.str "CHD8"], [], none, some "NM_001:c.101A>T (p.Tyr34Cys)", none, none,
            none⟩) :=
  C4_batch_first_match_with_deldup_filter "CHD8" "p.X"
    (fun i => if i == "1"
      then DetailResult.payload (some ⟨[GeneEntry.str "CHD8"], [], none,
        some "NM_001:c.100del (p.Gly34fs)", none, none, none⟩)
      else DetailResult.payload (some ⟨[GeneEntry.str "CHD8"], [], none,
        some "NM_001:c.101A>T (p.Tyr34Cys)", none, none, none⟩))
    ["1", "2"] "2"
    ⟨[GeneEntry.str "CHD8"], [], none, some "NM_001:c.101A>T (p.Tyr34Cys)", none, none, none⟩
    (by decide)

/-- C5: in the single tool, whenever the candidate list has more than one
element and the final candidate's detail fetch succeeds, the whole outcome
(gene-match comparison and returned record alike) equals the outcome on the
final candidate alone — the detail data of every earlier candidate, matching
or not, is ignored. -/
theorem C5_single_last_candidate_wins (gene variant : String)
    (fetch : String → DetailResult) (ids : List String) (p : Option VarData)
    (hlen : 1 < ids.length)
    (hlast : fetch (last_var_id ids) = DetailResult.payload p) :
    (query_clinvar_single gene variant (SearchResult.ok ids) fetch).1
      = (query_clinvar_single gene variant (SearchResult.ok [last_var_id ids]) fetch).1 := by
  have hne : ids ≠ [] := by
    intro h0; rw [h0] at hlen; simp at hlen
  have hie : ids.isEmpty = false := by
    cases ids with
    | nil => exact absurd rfl hne
    | cons a l => rfl
  have h1 := lastAssigned_of_last_payload ids hne hlast none
  have h2 : lastAssigned fetch [last_var_id ids] none = some (p.getD VarData.empty) := by
    cases p with
    | none => simp [lastAssigned, hlast]
    | some d => simp [lastAssigned, hlast]
  simp [query_clinvar_single, hie, h1, h2, last_var_id]

/-- Witness for C5: the first candidate matches the requested gene, the last
does not, and the tool behaves exactly as if only the last candidate existed. -/
theorem C5_single_last_candidate_wins_witness :
    (query_clinvar_single "CHD8" "p.X" (SearchResult.ok ["1", "2"])
        (fun i => if i == "1"
          then DetailResult.payload (some ⟨[GeneEntry.str "CHD8"], [VSetEntry.dict (some "S1")],
            none, none, none, none, none⟩)
          else DetailResult.payload (some ⟨[GeneEntry.str "OTHER"], [VSetEntry.dict (some "S2")],
            none, none, none, none, none⟩))).1
      = (query_clinvar_single "CHD8" "p.X" (SearchResult.ok [last_var_id ["1", "2"]])
          (fun i => if i == "1"
            then DetailResult.payload (some ⟨[GeneEntry.str "CHD8"], [VSetEntry.dict (some "S1")],
              none, none, none, none, none⟩)
            else DetailResult.payload (some ⟨[GeneEntry.str "OTHER"], [VSetEntry.dict (some "S2")],
              none, none, none, none, none⟩))).1 :=
  C5_single_last_candidate_wins "CHD8" "p.X"
    (fun i => if i == "1"
      then DetailResult.payload (some ⟨[GeneEntry.str "CHD8"], [VSetEntry.dict (some "S1")],
        none, none, none, none, none⟩)
      else DetailResult.payload (some ⟨[GeneEntry.str "OTHER"], [VSetEntry.dict (some "S2")],
        none, none, none, none, none⟩))
    ["1", "2"]
    (some ⟨[GeneEntry.str "OTHER"], [VSetEntry.dict (some "S2")], none, none, none, none, none⟩)
    (by decide) (by decide)

/-- C6 counterexample: when candidates exist but none yields a record, the
batch tool's failure message is a fixed string that reports no gene symbols at
all (here the examined candidate carried the symbol AAA, absent from the
message), and the single tool's message reports only the last fetched
candidate's symbols (CCC), not the union including AAA. -/
theorem C6_mismatch_message_not_union_counterexample :
    (query_clinvar_batch "BBB" "v" (SearchResult.ok ["1"])
        (fun _ => DetailResult.payload (some ⟨[GeneEntry.str "AAA"], [], none, none, none,
          none, none⟩))).1
      = BatchResult.failure "BBB" "v" "No matching ClinVar record for gene"
    ∧ pyIn "AAA" "No matching ClinVar record for gene" = false
    ∧ (query_clinvar_single "BBB" "v" (SearchResult.ok ["1", "2"])
        (fun i => if i == "1"
          then DetailResult.payload (some ⟨[GeneEntry.str "AAA"], [], none, none, none, none,
            none⟩)
          else DetailResult.payload (some ⟨[GeneEntry.str "CCC"], [], none, none, none, none,
            none⟩))).1
      = SingleRes.errString "Variant found but not associated with gene BBB. Found genes: CCC"
    ∧ pyIn "AAA" "Variant found but not associated with gene BBB. Found genes: CCC" = false :=
  ⟨by decide, by decide, by decide, by decide⟩

/-- C6 amended: when the batch candidate loop completes with no record it
returns the fixed message "No matching ClinVar record for gene" carrying no
gene symbols, and when the single tool's gene match fails its message reports
exactly the symbols of the candidate held in `var_data` after the loop (the
last one whose fetch succeeded), not a union over all candidates. -/
theorem C6_no_match_failure_messages (gene variant : String)
    (fetch : String → DetailResult) :
    (∀ ids : List String, ids ≠ [] → firstAccepted gene fetch ids = none →
      (query_clinvar_batch gene variant (SearchResult.ok ids) fetch).1
        = BatchResult.failure gene variant "No matching ClinVar record for gene")
    ∧ (∀ (ids : List String) (d : VarData), ids ≠ [] →
        lastAssigned fetch ids none = some d →
        gene_match gene (extract_gene_symbols d.genes) = false →
        (query_clinvar_single gene variant (SearchResult.ok ids) fetch).1
          = SingleRes.errString ("Variant found but not associated with gene " ++ gene ++
              ". Found genes: " ++ joinStr ", " (extract_gene_symbols d.genes))) := by
  constructor
  · intro ids hne h
    have hie : ids.isEmpty = false := by
      cases ids with
      | nil => exact absurd rfl hne
      | cons a l => rfl
    have hb := @batch_loop_of_firstAccepted_none gene variant fetch ids h
    simpa [query_clinvar_batch, hie] using hb
  · intro ids d hne hl hg
    have hie : ids.isEmpty = false := by
      cases ids with
      | nil => exact absurd rfl hne
      | cons a l => rfl
    simp [query_clinvar_single, hie, hl, single_post, hg]

/-- Witness for the C6 amended theorem at concrete non-matching candidates. -/
theorem C6_no_match_failure_messages_witness :
    (query_clinvar_batch "BBB" "v" (SearchResult.ok ["9"])
        (fun _ => DetailResult.payload (some ⟨[GeneEntry.str "AAA"], [], none, none, none,
          none, none⟩))).1
      = BatchResult.failure "BBB" "v" "No matching ClinVar record for gene" :=
  (C6_no_match_failure_messages "BBB" "v"
      (fun _ => DetailResult.payload (some ⟨[GeneEntry.str "AAA"], [], none, none, none,
        none, none⟩))).1 ["9"] (by decide) (by decide)

/-- C7: when the search succeeds with an empty identifier list, both tools
return the no-variants-found failure and their detail-fetch trace is empty —
no esummary call is issued. -/
theorem C7_empty_idlist_no_detail_calls (gene variant : String)
    (fetch : String → DetailResult) :
    query_clinvar_batch gene variant (SearchResult.ok []) fetch
      = (BatchResult.failure gene variant ("No variants found for gene: " ++ gene), [])
    ∧ query_clinvar_single gene variant (SearchResult.ok []) fetch
      = (SingleRes.errString ("No variants found for gene: " ++ gene), []) :=
  ⟨rfl, rfl⟩

/-- C8: when the search transport call fails, both tools return their search
failure value carrying the underlying cause message, with an empty
detail-fetch trace, and the outcome is a returned value (never a crash). -/
theorem C8_search_error_failure_no_fetch (gene variant e : String)
    (fetch : String → DetailResult) :
    query_clinvar_batch gene variant (SearchResult.err e) fetch
      = (BatchResult.failure gene variant ("Unable to search ClinVar: " ++ e), [])
    ∧ query_clinvar_single gene variant (SearchResult.err e) fetch
      = (SingleRes.errString ("Error: Unable to search ClinVar. " ++ e), []) :=
  ⟨rfl, rfl⟩

/-- C9: batch_query_from_excel skips exactly the rows with a blank (stripped
empty) Gene or Variant cell and emits one output row per remaining input row;
in particular one blank row plus two valid rows yield exactly two output
rows. -/
theorem C9_blank_rows_skipped
    (env : String → String → SearchResult × (String → DetailResult))
    (rows : List (String × String)) :
    (batch_query_from_excel env rows).length
      = (rows.filter (fun row => !(pyStrip row.1 == "" || pyStrip row.2 == ""))).length
    ∧ (batch_query_from_excel env
        [("", ""), ("CHD8", "p.Arg1580Trp"), ("ASXL1", "p.Gly646TrpfsTer12")]).length = 2 := by
  have hlen : ∀ rs : List (String × String),
      (batch_query_from_excel env rs).length
        = (rs.filter (fun row => !(pyStrip row.1 == "" || pyStrip row.2 == ""))).length := by
    intro rs
    induction rs with
    | nil => rfl
    | cons row rest ih =>
      cases hb : (pyStrip row.1 == "" || pyStrip row.2 == "") with
      | true => simp [batch_query_from_excel, hb, List.filter, ih]
      | false => simp [batch_query_from_excel, hb, List.filter, ih]
  refine ⟨hlen rows, ?_⟩
  rw [hlen]
  decide

/-- C10: a structured genes entry without a symbol key contributes the empty
string to the extracted symbol list, so a returned Gene Symbol field can
contain empty entries (here ", CHD8"), and the empty string takes part in the
case-insensitive gene match (a request for the empty gene name matches such a
candidate and yields a record). -/
theorem C10_missing_symbol_key_empty_string :
    (∀ rest : List GeneEntry,
      extract_gene_symbols (GeneEntry.dict none :: rest) = "" :: extract_gene_symbols rest)
    ∧ (query_clinvar_batch "CHD8" "v" (SearchResult.ok ["1"])
        (fun _ => DetailResult.payload (some ⟨[GeneEntry.dict none, GeneEntry.str "CHD8"], [],
          none, none, none, none, none⟩))).1
      = BatchResult.record ⟨"CHD8", "v", "1", "N/A", "N/A", "N/A", ", CHD8", "N/A", "N/A", "N/A"⟩
    ∧ (query_clinvar_batch "" "v" (SearchResult.ok ["1"])
        (fun _ => DetailResult.payload (some ⟨[GeneEntry.dict none], [], none, none, none,
          none, none⟩))).1
      = BatchResult.record ⟨"", "v", "1", "N/A", "N/A", "N/A", "", "N/A", "N/A", "N/A"⟩ :=
  ⟨fun rest => rfl, by decide, by decide⟩
